import Mathlib

/-!
Verification development for the MiniCRM Google-Sheets export pipeline.

Shallow embedding of the Python sources:
  * `src/crm/services/export_service.py`  — layout builder and orchestration
  * `src/crm/services/google_settings.py` — settings-file reading
  * `src/crm/routers/export.py`           — per-section row construction
  * `src/integrations/google_drive_client.py`  — credential resolution,
    document creation (class method sets embedded as attribute name lists)
  * `src/integrations/google_sheets_client.py` — sheets client, formatting

Python dict/list values in cells are embedded as the inductive `Cell`
(string / int / rational, the rational standing in for Python float — the
claims never exercise binary-float rounding, all float values appearing in
theorems are exactly representable).  Fallible Python code is embedded as
`Except PyErr`; remote-service calls are recorded as a trace of `Event`s.
-/

namespace MiniCRM

/-- A spreadsheet cell value as Python passes it around: `str`, `int`,
or `float` (embedded as an exact rational). -/
inductive Cell
  | s (v : String)
  | i (v : Int)
  | q (v : Rat)
  deriving DecidableEq, Repr

/-- Python `str(c)` on a cell.  On strings the identity, on ints the
decimal rendering.  On floats Python prints the shortest round-tripping
decimal; no theorem in this file inspects a stringified float, so the
rational is rendered with `toString` here. -/
def pyStr : Cell → String
  | .s v => v
  | .i v => toString v
  | .q v => toString v

/-- Python string slicing `s[:n]`: the first `n` characters (all of
them when the string is shorter).  `List.take` stops at the end of the
string, keeping reductions shallow. -/
def strTake (s : String) (n : Nat) : String := String.mk (s.data.take n)

/-- Python truthiness of an optional string (`None` and `""` are falsy). -/
def truthy : Option String → Bool
  | none => false
  | some s => s ≠ ""

/-! ## Column addressing (`_col_letter`, export_service.py lines 24-30)

```python
def _col_letter(n: int) -> str:
    s = ""
    while n > 0:
        n, r = divmod(n - 1, 26)
        s = chr(65 + r) + s
    return s or "A"
```

The loop body is structural in the 1-based index: one pass prepends
`chr(65 + (n-1) % 26)` after recursing on `(n-1) // 26`.  `colChars m`
below is the character list the loop builds for the positive entry value
`m`; the `n+1` pattern makes `n` play the role of `m - 1`. -/

/-- One step of the `while n > 0` loop of `_col_letter`, driven by
structural fuel so that concrete values reduce definitionally.  For
`n = m + 1` the loop prepends `chr(65 + m % 26)` to the result of the
remaining iterations on `m / 26` (the source's `divmod(n - 1, 26)`).
The fuel only needs to dominate the value; `colChars` supplies `n`
itself, which suffices since `m / 26 ≤ m`. -/
def colCharsGo : Nat → Nat → List Char
  | _, 0 => []
  | 0, _ + 1 => []
  | fuel + 1, m + 1 => colCharsGo fuel (m / 26) ++ [Char.ofNat (65 + m % 26)]

/-- Character list computed by the `while n > 0` loop of `_col_letter`
for entry value `n`. -/
def colChars (n : Nat) : List Char := colCharsGo n n

/-- `_col_letter` (export_service.py lines 24-30): the loop runs only for
`n > 0`; the trailing `return s or "A"` turns the empty result of a
non-positive input into `"A"`. -/
def colLetter (n : Int) : String :=
  let s : List Char := if n ≤ 0 then [] else colChars n.toNat
  if s.isEmpty then "A" else String.mk s

/-- Inverse reading of an A1 column word: fold `acc * 26 + (code - 64)`
over the characters (`letter_to_index` of the spec, used to state the
round-trip property). -/
def letterIndex (w : String) : Nat :=
  w.data.foldl (fun acc c => acc * 26 + (c.toNat - 64)) 0

/-! ## Raw records and the summary block (`_build_summary_block`) -/

/-- A deal amount as `float()` sees it: `num` for values `float()`
converts (int, float, numeric string), `nonnum` for values it rejects
with `TypeError`/`ValueError` (silently skipped by the summary loop). -/
inductive Amount
  | num (q : Rat)
  | nonnum
  deriving DecidableEq, Repr

/-- The keys of a raw record dict (an element of `rows_data`) that
`_build_summary_block` reads via `.get`: an absent key and a `None`
value are both `none` here; `is_completed` is read for truthiness. -/
structure Rec where
  status : Option String := none
  amount : Option Amount := none
  created_at : Option String := none
  is_completed : Bool := false
  deriving DecidableEq, Repr

/-- `_pad_row` (export_service.py lines 57-59): right-pad with empty
string cells up to `numCols`; never truncates (`max(0, …)` is the
truncated Nat subtraction). -/
def padRow (row : List Cell) (numCols : Nat) : List Cell :=
  row ++ List.replicate (numCols - row.length) (Cell.s "")

/-- All characters are decimal digits. -/
def digitsOnly (l : List Char) : Bool := l.all Char.isDigit

/-- Shape test standing in for `datetime.fromisoformat` acceptance on
the strings this program actually produces: the store writes
`created_at` as `YYYY-MM-DDTHH:MM:SSZ` (database.py `_now_iso`), and a
bare `YYYY-MM-DD` date is also admitted.  On either shape, datetime
ordering coincides with lexicographic string ordering, so the summary's
`min`/`max` over parsed dates is modelled directly on the strings. -/
def isIsoLike (s : String) : Bool :=
  match s.data with
  | [y1, y2, y3, y4, '-', o1, o2, '-', d1, d2] =>
      digitsOnly [y1, y2, y3, y4, o1, o2, d1, d2]
  | [y1, y2, y3, y4, '-', o1, o2, '-', d1, d2, 'T', h1, h2, ':', m1, m2, ':', s1, s2, 'Z'] =>
      digitsOnly [y1, y2, y3, y4, o1, o2, d1, d2, h1, h2, m1, m2, s1, s2]
  | _ => false

/-- `_parse_date` (export_service.py lines 47-54): `None`/empty input
gives `None`; a parse failure is absorbed to `None`; a successful parse
is modelled by keeping the (order-isomorphic) string itself. -/
def parseDate (o : Option String) : Option String :=
  match o with
  | none => none
  | some s => if s = "" then none else if isIsoLike s then some s else none

/-- Lexicographic comparison of character lists by code point (Python
string comparison). -/
def lexLe : List Char → List Char → Bool
  | [], _ => true
  | _ :: _, [] => false
  | a :: as, b :: bs =>
    if a.toNat < b.toNat then true
    else if b.toNat < a.toNat then false
    else lexLe as bs

/-- Compare strings lexicographically on their character codes (the
order `datetime` induces on the shapes `parseDate` admits). -/
def strLe (a b : String) : Bool := lexLe a.data b.data

/-- Python `min` over a nonempty list of parsed dates, then
`strftime("%Y-%m-%d")` (the first 10 characters of either admitted
shape); `"—"` when no row has a parseable date. -/
def dateMinStr (dates : List String) : String :=
  match dates with
  | [] => "—"
  | d :: ds => strTake (ds.foldl (fun a b => if strLe b a then b else a) d) 10

/-- Python `max` over a nonempty list of parsed dates, then
`strftime("%Y-%m-%d")`; `"—"` when no row has a parseable date. -/
def dateMaxStr (dates : List String) : String :=
  match dates with
  | [] => "—"
  | d :: ds => strTake (ds.foldl (fun a b => if strLe a b then b else a) d) 10

/-- `st = r.get("status") or "draft"` in the deals branch: a missing or
empty status is replaced by `"draft"` before counting/summing. -/
def effStatus (r : Rec) : String :=
  match r.status with
  | none => "draft"
  | some s => if s = "" then "draft" else s

/-- The amount a row contributes to its status' running sum:
`float(amt)` for a present convertible amount, nothing (0) for a
missing amount or one `float()` rejects. -/
def amtVal (r : Rec) : Rat :=
  match r.amount with
  | some (.num q) => q
  | _ => 0

/-- `counts[k]` after the deals loop: one per row whose effective
status is `k`. -/
def dealCount (rows : List Rec) (k : String) : Nat :=
  (rows.filter (fun r => effStatus r == k)).length

/-- `sums[k]` after the deals loop: the sum of contributing amounts of
rows with effective status `k` (`defaultdict(float)` starts at 0). -/
def dealSum (rows : List Rec) (k : String) : Rat :=
  ((rows.filter (fun r => effStatus r == k)).map amtVal).sum

/-- Round half-to-even to an integer (the tie rule of Python `round`). -/
def roundHalfEven (q : Rat) : Int :=
  let f := q.floor
  let r := q - (f : Rat)
  if r < 1 / 2 then f
  else if 1 / 2 < r then f + 1
  else if f % 2 = 0 then f else f + 1

/-- `round(x, 2)`: idealized to exact rational arithmetic (the source
rounds the binary float; no claim exercises a value where the two
differ). -/
def round2 (q : Rat) : Rat := (roundHalfEven (q * 100) : Rat) / 100

/-- `labels.get(k, k)` of the deals branch. -/
def dealLabel (k : String) : String :=
  if k = "draft" then "Черновик"
  else if k = "in_progress" then "В работе"
  else if k = "won" then "Выиграно"
  else if k = "lost" then "Проиграно"
  else k

/-- The fixed status order of the deals summary. -/
def dealOrder : List String := ["draft", "in_progress", "won", "lost"]

/-- Distinct client status keys in ascending order:
`sorted(Counter(r.get("status") or "" for r in rows).items())`.
Implemented as sorted deduplication by insertion. -/
def insertSorted (s : String) (l : List String) : List String :=
  match l with
  | [] => [s]
  | x :: xs => if strLe s x then s :: x :: xs else x :: insertSorted s xs

/-- Sort a list of strings ascending (insertion sort). -/
def sortStrings (l : List String) : List String :=
  l.foldr insertSorted []

/-- The keys of the clients status counter, ascending. -/
def clientStatusKeys (rows : List Rec) : List String :=
  sortStrings ((rows.map (fun r => r.status.getD "")).dedup)

/-- The clients branch status line: `"k: v"` joined with `", "` over
the sorted counter items (all counts are positive, so the `if v` filter
never drops an item); `"—"` when the joined line is empty. -/
def clientStatusLine (rows : List Rec) : String :=
  let line := ", ".intercalate ((clientStatusKeys rows).map (fun k =>
    k ++ ": " ++ toString ((rows.filter (fun r => r.status.getD "" == k)).length)))
  if line = "" then "—" else line

/-- `_build_summary_block` (export_service.py lines 62-131), translated
branch by branch.  Empty input returns the generic placeholder block
before any per-section logic runs. -/
def summaryBlock (sectionTag : String) (rowsData : List Rec) (numCols : Nat) :
    List (List Cell) :=
  if rowsData.isEmpty then
    [padRow [.s "Сводка отчёта"] numCols,
     padRow [.s "Период:", .s "—", .s "—"] numCols,
     padRow [.s "Статусы:", .s "—"] numCols,
     padRow [.s "Всего записей:", .i 0] numCols]
  else
    let dates := rowsData.filterMap (fun r => parseDate r.created_at)
    let dMin := dateMinStr dates
    let dMax := dateMaxStr dates
    if sectionTag = "clients" then
      [padRow [.s "Сводка отчёта"] numCols,
       padRow [.s "Период:", .s dMin, .s dMax] numCols,
       padRow [.s "Статусы:", .s (clientStatusLine rowsData)] numCols,
       padRow [.s "Всего записей:", .i rowsData.length] numCols]
    else if sectionTag = "deals" then
      [padRow [.s "Сводка по сделкам"] numCols,
       padRow [.s "Период:", .s dMin, .s dMax] numCols,
       padRow (.s "Статус" :: dealOrder.map (fun k => .s (dealLabel k))) numCols,
       padRow (.s "Кол-во" :: dealOrder.map (fun k => .i (dealCount rowsData k))) numCols,
       padRow (.s "Сумма" :: dealOrder.map (fun k => .q (round2 (dealSum rowsData k)))) numCols,
       padRow [.s "Всего записей:", .i rowsData.length] numCols]
    else if sectionTag = "tasks" then
      let done := (rowsData.filter (fun r => r.is_completed)).length
      [padRow [.s "Сводка отчёта"] numCols,
       padRow [.s "Период:", .s dMin, .s dMax] numCols,
       padRow [.s "Выполнено:", .i done, .s "Не выполнено:", .i (rowsData.length - done)] numCols,
       padRow [.s "Всего записей:", .i rowsData.length] numCols]
    else
      [padRow [.s "Сводка отчёта"] numCols,
       padRow [.s "Период:", .s dMin, .s dMax] numCols,
       padRow [.s "Всего записей:", .i rowsData.length] numCols]

/-! ## Value-matrix composition (export_service.py lines 174-193) -/

/-- `data_rows = [[str(c) for c in row] for row in rows]`. -/
def buildDataRows (rows : List (List Cell)) : List (List Cell) :=
  rows.map (fun row => row.map (fun c => Cell.s (pyStr c)))

/-- `title_row = [report_title] + [""] * (num_cols - 1)` (the Python
negative-repeat for `num_cols = 0` and the Nat subtraction agree). -/
def buildTitleRow (title : String) (numCols : Nat) : List Cell :=
  Cell.s title :: List.replicate (numCols - 1) (Cell.s "")

/-- The composed value matrix (export_service.py lines 181-187):
`[title_row] + summary + [blank] + [headers] + data_rows` when
`section and num_cols` is truthy, else
`[title_row, blank] + [headers] + data_rows`. -/
def buildValues (title : String) (headers : List String) (rows : List (List Cell))
    (sectionTag : Option String) (rowsData : List Rec) : List (List Cell) :=
  let numCols := headers.length
  let dataRows := buildDataRows rows
  let titleRow := buildTitleRow title numCols
  if truthy sectionTag && numCols != 0 then
    titleRow :: (summaryBlock (sectionTag.getD "") rowsData numCols ++
      (List.replicate numCols (Cell.s "") :: (headers.map Cell.s :: dataRows)))
  else
    titleRow :: List.replicate numCols (Cell.s "") :: headers.map Cell.s :: dataRows

/-- `data_start_row = len(values) - len(data_rows) - 1` (0-based header
row index; always non-negative since the matrix has at least title,
blank and header rows before the data). -/
def dataStartRow (values dataRows : List (List Cell)) : Nat :=
  values.length - dataRows.length - 1

/-! ## Router row construction (src/crm/routers/export.py) -/

/-- A client row as `db.client_list` returns it (database.py
`_row_to_client`): NOT NULL columns are plain fields, nullable ones
`Option`. -/
structure ClientRec where
  id : Int
  name : String
  email : Option String := none
  phone : Option String := none
  status : String
  notes : Option String := none
  created_at : String
  updated_at : String
  deriving DecidableEq, Repr

/-- A deal row (database.py `_row_to_deal`); `amount` is a SQLite REAL,
embedded as an exact rational. -/
structure DealRec where
  id : Int
  client_id : Option Int := none
  title : String
  amount : Option Rat := none
  status : String
  notes : Option String := none
  created_at : String
  updated_at : String
  deriving DecidableEq, Repr

/-- A task row (database.py `_row_to_task`). -/
structure TaskRec where
  id : Int
  title : String
  description : Option String := none
  client_id : Option Int := none
  deal_id : Option Int := none
  is_completed : Bool := false
  due_date : Option String := none
  created_at : String
  updated_at : String
  deriving DecidableEq, Repr

/-- Python default-whitespace test of `str.strip()`. -/
def isPySpace (c : Char) : Bool :=
  c == ' ' || c == '\t' || c == '\n' || c == '\r' || c == '\x0b' || c == '\x0c'

/-- Python `str.strip()`: drop leading and trailing whitespace
characters; returns the character list of the stripped string. -/
def pyStrip (s : String) : List Char :=
  ((s.data.dropWhile isPySpace).reverse.dropWhile isPySpace).reverse

/-- `_escape_cell` (export.py lines 23-29, defined inside
`export_clients` and applied there to the phone column only):

```python
def _escape_cell(v):
    s = v if v is not None else ""
    s = str(s).strip()
    if s and s[0] in ("+", "=", "-", "@"):
        return "'" + str(v)
    return v if v is not None else ""
```

`pyStrip` below stands in for Python `str.strip()` (ASCII whitespace;
no claim uses exotic Unicode space), and the `if s and s[0] in …` test
is the head-character test on the stripped value. -/
def escapeCell (v : Option String) : String :=
  match pyStrip (v.getD "") with
  | [] => v.getD ""
  | c :: _ =>
    if c == '+' || c == '=' || c == '-' || c == '@' then "'" ++ v.getD ""
    else v.getD ""

/-- `r.get(k) or ""` for an optional integer column: `None` and `0` are
falsy and give the empty string. -/
def intOrEmpty (v : Option Int) : Cell :=
  match v with
  | none => .s ""
  | some n => if n = 0 then .s "" else .i n

/-- `r.get("amount") or ""` for the deals export: `None` and `0.0` give
the empty string. -/
def amtOrEmpty (v : Option Rat) : Cell :=
  match v with
  | none => .s ""
  | some q => if q = 0 then .s "" else .q q

/-- One clients export row (export.py lines 31-38): row number, id,
name, email, escaped phone, status, notes truncated to 500 characters,
timestamps.  Only the phone column passes through `_escape_cell`. -/
def clientCells (i : Nat) (r : ClientRec) : List Cell :=
  [.i ((i : Int) + 1), .i r.id, .s r.name, .s (r.email.getD ""),
   .s (escapeCell r.phone), .s r.status, .s (strTake (r.notes.getD "") 500),
   .s r.created_at, .s r.updated_at]

/-- One deals export row (export.py lines 58-65): no column is
escaped. -/
def dealCells (i : Nat) (r : DealRec) : List Cell :=
  [.i ((i : Int) + 1), .i r.id, .s r.title, intOrEmpty r.client_id,
   amtOrEmpty r.amount, .s r.status, .s (strTake (r.notes.getD "") 500),
   .s r.created_at, .s r.updated_at]

/-- One tasks export row (export.py lines 85-92): no column is
escaped. -/
def taskCells (i : Nat) (r : TaskRec) : List Cell :=
  [.i ((i : Int) + 1), .i r.id, .s r.title, .s (strTake (r.description.getD "") 500),
   intOrEmpty r.client_id, intOrEmpty r.deal_id,
   .s (if r.is_completed then "Да" else "Нет"),
   .s (strTake (r.due_date.getD "") 10), .s r.created_at, .s r.updated_at]

/-- Stable ascending sort by a record's id (`sorted(…, key=lambda r:
r["id"])` in every export router). -/
def insertByKey (key : α → Int) (a : α) : List α → List α
  | [] => [a]
  | x :: xs => if key a < key x then a :: x :: xs else x :: insertByKey key a xs

/-- Stable insertion sort by an integer key. -/
def sortByKey (key : α → Int) (l : List α) : List α :=
  l.foldr (insertByKey key) []

/-- Clients export rows: records sorted by id, then enumerated. -/
def clientRows (recs : List ClientRec) : List (List Cell) :=
  ((sortByKey (fun r => r.id) recs).enum).map (fun p => clientCells p.1 p.2)

/-- Deals export rows. -/
def dealRows (recs : List DealRec) : List (List Cell) :=
  ((sortByKey (fun r => r.id) recs).enum).map (fun p => dealCells p.1 p.2)

/-- Tasks export rows. -/
def taskRows (recs : List TaskRec) : List (List Cell) :=
  ((sortByKey (fun r => r.id) recs).enum).map (fun p => taskCells p.1 p.2)

/-- The headers of the clients export (export.py line 21). -/
def clientsHeaders : List String :=
  ["№", "ID", "Имя", "Email", "Телефон", "Статус", "Заметки", "Создан", "Обновлён"]

/-- The headers of the deals export (export.py line 57). -/
def dealsHeaders : List String :=
  ["№", "ID", "Название", "ID клиента", "Сумма", "Статус", "Заметки", "Создан", "Обновлён"]

/-- The headers of the tasks export (export.py line 84). -/
def tasksHeaders : List String :=
  ["№", "ID", "Название", "Описание", "ID клиента", "ID сделки", "Выполнено", "Срок",
   "Создан", "Обновлён"]

/-- A client dict as `_build_summary_block` sees it. -/
def clientToRec (r : ClientRec) : Rec :=
  { status := some r.status, amount := none, created_at := some r.created_at,
    is_completed := false }

/-- A deal dict as `_build_summary_block` sees it (amounts from the
store are REAL or NULL, hence always convertible when present). -/
def dealToRec (r : DealRec) : Rec :=
  { status := some r.status, amount := r.amount.map Amount.num,
    created_at := some r.created_at, is_completed := false }

/-- A task dict as `_build_summary_block` sees it. -/
def taskToRec (r : TaskRec) : Rec :=
  { status := none, amount := none, created_at := some r.created_at,
    is_completed := r.is_completed }

/-- The spec's worked example for the deals summary: statuses
`[draft, draft, won]` with amounts `[100, 200, 300]`. -/
def exampleDealsRows : List Rec :=
  [{ status := some "draft", amount := some (.num 100) },
   { status := some "draft", amount := some (.num 200) },
   { status := some "won", amount := some (.num 300) }]

/-! ## Settings, credentials and the export orchestration -/

/-- State of a credential/secret JSON file on disk: absent, present but
not valid JSON (or not a valid key), or valid with an optional
`client_email` entry. -/
inductive CredFileState
  | missing
  | malformed
  | valid (clientEmail : Option String)
  deriving DecidableEq, Repr

/-- The flat settings object (`google_export_settings.json`). -/
structure GoogleSettings where
  folder_id : Option String := none
  credentials_path : Option String := none
  client_secret_path : Option String := none
  deriving DecidableEq, Repr

/-- State of the settings file: absent, present but not parseable as
JSON, or a parsed object.  (A file parsing to non-object JSON is
returned as-is by the source and outside this model.) -/
inductive SettingsFileState
  | absent
  | corrupt
  | valid (s : GoogleSettings)
  deriving DecidableEq, Repr

/-- `read_google_settings` (google_settings.py lines 11-18): a missing
file gives an empty dict; any exception while opening or parsing is
absorbed into an empty dict. -/
def readGoogleSettings : SettingsFileState → GoogleSettings
  | .absent => {}
  | .corrupt => {}
  | .valid s => s

/-- Everything outside one `export_to_google_sheet` call that its
behaviour depends on: the settings file, the process environment, the
bundled-key search, credential files on disk, the OAuth token cache,
the clock, and the remote service's responses. -/
structure ExportEnv where
  settingsFile : SettingsFileState := .absent
  /-- Truthy value of `GOOGLE_CREDENTIALS_PATH` or `CREDENTIALS_PATH`. -/
  envCredPath : Option String := none
  /-- First `*excel-factory*.json` glob match in the integrations directory. -/
  integrationsKey : Option String := none
  /-- First `*excel-factory*.json` glob match in the config directory. -/
  configKey : Option String := none
  /-- Contents of credential/secret files, by path. -/
  files : String → CredFileState := fun _ => .missing
  /-- A valid cached OAuth token (`token_drive_user.json`) exists. -/
  tokenValid : Bool := false
  /-- The clock: `datetime.now().strftime("%Y-%m-%d %H-%M-%S")`. -/
  now : String := "2025-01-01 00-00-00"
  /-- Id the remote service assigns to the created document. -/
  newFileId : String := "sheet-id-1"
  /-- `webViewLink` the remote service returns for the created document. -/
  newFileLink : String := "https://docs.example/sheet-id-1"
  /-- Title of the spreadsheet's first sheet (`get_sheet_titles()[0]`). -/
  firstSheetTitle : String := "Лист1"

/-- Errors this pipeline can raise, named after the Python exception
classes (`FileNotFoundError`, credential-parse failures of the auth
library or `json.loads`, `AttributeError`, `TypeError`). -/
inductive PyErr
  | fileNotFound (what : String)
  | invalidCredentials (what : String)
  | attributeError (attr : String)
  | typeError (msg : String)
  deriving DecidableEq, Repr

/-- Stand-in for the project root `ROOT` of config.py. -/
def projectRoot : String := "/project"

/-- `Path(p).is_absolute()` on the POSIX host. -/
def isAbsolutePath (p : String) : Bool :=
  match p.data with
  | '/' :: _ => true
  | _ => false

/-- Python `path.replace("\\", "/")` — the pattern is a single
character, so this is a character map. -/
def backslashToSlash (p : String) : String :=
  String.mk (p.data.map (fun c => if c == '\\' then '/' else c))

/-- `_resolve_creds_path` (export_service.py lines 33-36): `None`,
empty and absolute paths pass through; a relative path is joined onto
the project root after backslash normalisation. -/
def resolveCredsPath (p : Option String) : Option String :=
  match p with
  | none => none
  | some s =>
    if s = "" || isAbsolutePath s then some s
    else some (projectRoot ++ "/" ++ backslashToSlash s)

/-- `GoogleDriveClient._resolve_credentials_path` (google_drive_client.py
lines 83-101) and the structurally identical
`GoogleSheetsClient._resolve_credentials_path` (google_sheets_client.py
lines 80-96): an explicit path wins; otherwise the environment
variables, then the bundled `*excel-factory*.json` search in the
integrations and config directories; `FileNotFoundError` when all of
these are absent. -/
def resolveCredentialsPath (explicit : Option String) (env : ExportEnv) :
    Except PyErr String :=
  match explicit with
  | some p => .ok p
  | none =>
    match env.envCredPath with
    | some p => .ok p
    | none =>
      match env.integrationsKey with
      | some p => .ok p
      | none =>
        match env.configKey with
        | some p => .ok p
        | none => .error (.fileNotFound "service-account json key")

/-- `Credentials.from_service_account_file` + `build` (the external
google-auth library, called by both clients' `_build_service`): fails
on a missing or malformed key file, modelled abstractly. -/
def loadServiceAccount (path : String) (env : ExportEnv) : Except PyErr Unit :=
  match env.files path with
  | .missing => .error (.fileNotFound path)
  | .malformed => .error (.invalidCredentials path)
  | .valid _ => .ok ()

/-- `_get_user_credentials` (google_drive_client.py lines 243-276): a
valid cached token short-circuits without ever reading the client
secret; otherwise the OAuth flow reads the client-secret file and fails
on a missing or malformed one (the interactive flow itself is assumed
to succeed). -/
def getUserCredentials (clientSecretPath : String) (env : ExportEnv) :
    Except PyErr Unit :=
  if env.tokenValid then .ok ()
  else
    match env.files clientSecretPath with
    | .missing => .error (.fileNotFound clientSecretPath)
    | .malformed => .error (.invalidCredentials clientSecretPath)
    | .valid _ => .ok ()

/-- `_get_service_account_email` (export_service.py lines 39-44):
re-resolve a relative path against the root, `json.loads` the file,
then `data.get("client_email") or ""`. -/
def getServiceAccountEmail (path : String) (env : ExportEnv) :
    Except PyErr String :=
  let p := if isAbsolutePath path then path
           else projectRoot ++ "/" ++ backslashToSlash path
  match env.files p with
  | .missing => .error (.fileNotFound p)
  | .malformed => .error (.invalidCredentials p)
  | .valid e => .ok (e.getD "")

/-- The methods defined on `GoogleDriveUserClient`
(google_drive_client.py lines 279-398); an attribute lookup for any
other name raises `AttributeError` (the class has no base other than
`object` and no `__getattr__`). -/
def googleDriveUserClientAttrs : List String :=
  ["list_files", "get_folder_id_by_name", "create_google_doc", "create_google_sheet"]

/-- The keyword parameters `GoogleSheetsClient.format_report_table`
accepts (google_sheets_client.py lines 730-735). -/
def formatReportTableParams : List String := ["sheet_name", "num_rows", "num_cols"]

/-- The keyword argument names at the `format_report_table` call site
in `export_to_google_sheet` (export_service.py lines 215-227). -/
def exportFormatCallKwargs : List String :=
  ["sheet_name", "num_rows", "num_cols", "data_start_row", "summary_rows",
   "title_row_index", "report_title", "status_col_index", "status_colors",
   "data_rows_values", "status_text_color"]

/-- The first keyword argument of the call that the method does not
accept; Python raises `TypeError` naming it when binding arguments. -/
def firstUnexpectedKwarg : Option String :=
  exportFormatCallKwargs.find? (fun k => !(formatReportTableParams.contains k))

/-- MIME type constant of google_drive_client.py. -/
def MIME_GOOGLE_SHEET : String := "application/vnd.google-apps.spreadsheet"

/-- One remote-service call made by the pipeline. -/
inductive Event
  | createSheetUser (title : String) (folderId : Option String)
  | createFileService (title : String) (mimeType : String) (folderId : Option String)
  | shareWriter (fileId : String) (email : String) (role : String)
  | writeRange (rangeName : String) (sheetName : String)
      (values : List (List Cell)) (valueInputOption : String)
  | formatReportTableCall (sheetName : String)
      (numRows numCols dataStart summaryCnt : Nat)
  deriving DecidableEq, Repr

/-- The dict `export_to_google_sheet` returns. -/
structure ExportResult where
  spreadsheet_id : String
  webViewLink : String
  title : String
  deriving DecidableEq, Repr

/-- The document-creation stage of `export_to_google_sheet`
(export_service.py lines 157-170): delegated (OAuth user) branch when a
client-secret path is configured, with the service-account `writer`
grant attempt; otherwise the service-account branch.  Returns the
events so far and the created document's id and link. -/
def createStage (env : ExportEnv) (credsPath clientSecretPath fidOrNone : Option String)
    (titleWithTs : String) : List Event × Except PyErr (String × String) :=
  if truthy clientSecretPath then
    match getUserCredentials (clientSecretPath.getD "") env with
    | .error e => ([], .error e)
    | .ok _ =>
      let ev := Event.createSheetUser titleWithTs fidOrNone
      let sid := env.newFileId
      if truthy credsPath then
        match getServiceAccountEmail (credsPath.getD "") env with
        | .error e => ([ev], .error e)
        | .ok email =>
          if email ≠ "" then
            if googleDriveUserClientAttrs.contains "share_file_with_email" then
              ([ev, .shareWriter sid email "writer"], .ok (sid, env.newFileLink))
            else
              ([ev], .error (.attributeError "share_file_with_email"))
          else ([ev], .ok (sid, env.newFileLink))
      else ([ev], .ok (sid, env.newFileLink))
  else
    match resolveCredentialsPath credsPath env with
    | .error e => ([], .error e)
    | .ok rp =>
      match loadServiceAccount rp env with
      | .error e => ([], .error e)
      | .ok _ =>
        ([Event.createFileService titleWithTs MIME_GOOGLE_SHEET fidOrNone],
         .ok (env.newFileId, env.newFileLink))

/-- `export_to_google_sheet` (export_service.py lines 134-229): read
settings, resolve paths, create the document under the resolved
identity, construct the sheets client, compose and bulk-write the value
matrix, then call `format_report_table`.  Returns the trace of
remote-service calls together with the result or the raised error. -/
def exportToGoogleSheet (env : ExportEnv) (title : String) (headers : List String)
    (rows : List (List Cell)) (folderId : Option String)
    (sectionTag : Option String) (rowsData : Option (List Rec)) :
    List Event × Except PyErr ExportResult :=
  let settings := readGoogleSettings env.settingsFile
  let credsPath := resolveCredsPath settings.credentials_path
  let clientSecretPath := resolveCredsPath settings.client_secret_path
  let fid : Option String := if truthy folderId then folderId else settings.folder_id
  let fidOrNone : Option String := if truthy fid then fid else none
  let titleWithTs := title ++ " " ++ env.now
  match createStage env credsPath clientSecretPath fidOrNone titleWithTs with
  | (evs, .error e) => (evs, .error e)
  | (evs, .ok (spreadsheetId, webViewLink)) =>
    match resolveCredentialsPath credsPath env with
    | .error e => (evs, .error e)
    | .ok rp =>
      match loadServiceAccount rp env with
      | .error e => (evs, .error e)
      | .ok _ =>
        let sheetName := env.firstSheetTitle
        let numCols := headers.length
        let dataRows := buildDataRows rows
        let values := buildValues title headers rows sectionTag (rowsData.getD [])
        let ds := dataStartRow values dataRows
        let numDataRows := 1 + dataRows.length
        let totalRows := values.length
        let summaryCnt := if truthy sectionTag then ds - 2 else 0
        let rangeName := "A1:" ++ colLetter (numCols : Int) ++ toString totalRows
        let evs := evs ++ [Event.writeRange rangeName sheetName values "USER_ENTERED"]
        match firstUnexpectedKwarg with
        | some k =>
          (evs, .error (.typeError
            ("format_report_table() got an unexpected keyword argument " ++ k)))
        | none =>
          (evs ++ [Event.formatReportTableCall sheetName numDataRows numCols ds summaryCnt],
           .ok { spreadsheet_id := spreadsheetId, webViewLink := webViewLink,
                 title := titleWithTs })

/-! ## Concrete fixtures used by the counterexamples and failing-input
evaluations -/

/-- Delegated-mode environment: both paths configured, the service key
carrying a non-empty `client_email`, a cached OAuth token present. -/
def envDelegated : ExportEnv :=
  { settingsFile := .valid { credentials_path := some "/keys/sa.json",
                             client_secret_path := some "/keys/client_secret.json" },
    files := fun p =>
      if p = "/keys/sa.json" then .valid (some "svc@example.iam.gserviceaccount.com")
      else if p = "/keys/client_secret.json" then .valid none
      else .missing,
    tokenValid := true }

/-- Service-mode environment: only a valid service key configured. -/
def envService : ExportEnv :=
  { settingsFile := .valid { credentials_path := some "/keys/sa.json" },
    files := fun p =>
      if p = "/keys/sa.json" then .valid (some "svc@example.com") else .missing }

/-- Environment with an empty settings file but the credential
environment variable set to a valid key. -/
def envEnvFallback : ExportEnv :=
  { settingsFile := .absent,
    envCredPath := some "/etc/sa.json",
    files := fun p => if p = "/etc/sa.json" then .valid (some "sa@example.com")
                      else .missing }

/-- A concrete client record whose notes are a formula-looking string. -/
def exClientFormulaNotes : ClientRec :=
  { id := 1, name := "Ivan", phone := some "+7 900", status := "active",
    notes := some "=1+1", created_at := "2025-01-02T03:04:05Z",
    updated_at := "2025-01-02T03:04:05Z" }

/-- A concrete client record with a formula-looking phone. -/
def exClientFormulaPhone : ClientRec :=
  { id := 2, name := "Anna", phone := some "=2+2", status := "active",
    created_at := "2025-01-03T00:00:00Z", updated_at := "2025-01-03T00:00:00Z" }

/-! # Theorems

Helper lemmas first, then one theorem per claim (with its witness or
counterexample where required). -/

/-- The character written by one loop step of `_col_letter` is the
ASCII capital with the expected code. -/
theorem char_ofNat_capital : ∀ r : Nat, r < 26 →
    (Char.ofNat (65 + r)).toNat = 65 + r ∧
    'A' ≤ Char.ofNat (65 + r) ∧ Char.ofNat (65 + r) ≤ 'Z' := by decide

/-- The loop of `_col_letter` yields a nonempty word on positive
input. -/
theorem colChars_ne_nil (n : Nat) (h : 1 ≤ n) : colChars n ≠ [] := by
  unfold colChars
  cases n with
  | zero => omega
  | succ m => simp [colCharsGo]

/-- Value of the bijective base-26 fold over the loop's output, for any
accumulator: the fuel-indexed loop writes exactly the digits of `n`. -/
theorem colCharsGo_foldl (fuel : Nat) : ∀ n acc, n ≤ fuel →
    (colCharsGo fuel n).foldl (fun acc c => acc * 26 + (c.toNat - 64)) acc =
      acc * 26 ^ (colCharsGo fuel n).length + n := by
  induction fuel with
  | zero =>
    intro n acc hn
    have hz : n = 0 := Nat.le_zero.mp hn
    subst hz
    simp [colCharsGo]
  | succ fuel ih =>
    intro n acc hn
    cases n with
    | zero => simp [colCharsGo]
    | succ m =>
      have hm : m / 26 ≤ fuel :=
        le_trans (Nat.div_le_self m 26) (Nat.lt_succ_iff.mp hn)
      simp only [colCharsGo, List.foldl_append, List.foldl_cons, List.foldl_nil,
        List.length_append, List.length_singleton]
      rw [ih (m / 26) acc hm]
      rw [(char_ofNat_capital (m % 26) (Nat.mod_lt _ (by norm_num))).1]
      have h64 : 65 + m % 26 - 64 = m % 26 + 1 := by omega
      rw [h64, pow_succ, ← mul_assoc]
      generalize acc * 26 ^ (colCharsGo fuel (m / 26)).length = t
      omega

/-- Every character the loop writes is a capital `A`–`Z`. -/
theorem colCharsGo_mem (fuel : Nat) : ∀ n c, n ≤ fuel → c ∈ colCharsGo fuel n →
    'A' ≤ c ∧ c ≤ 'Z' := by
  induction fuel with
  | zero =>
    intro n c hn hc
    have hz : n = 0 := Nat.le_zero.mp hn
    subst hz
    simp [colCharsGo] at hc
  | succ fuel ih =>
    intro n c hn hc
    cases n with
    | zero => simp [colCharsGo] at hc
    | succ m =>
      simp only [colCharsGo, List.mem_append, List.mem_singleton] at hc
      rcases hc with hc | rfl
      · exact ih (m / 26) c
          (le_trans (Nat.div_le_self m 26) (Nat.lt_succ_iff.mp hn)) hc
      · exact (char_ofNat_capital (m % 26) (Nat.mod_lt _ (by norm_num))).2

/-- On a positive index `_col_letter` returns the raw loop output. -/
theorem colLetter_pos (n : Int) (hn : 1 ≤ n) :
    colLetter n = String.mk (colChars n.toNat) := by
  have h0 : ¬ n ≤ 0 := by omega
  have hne := colChars_ne_nil n.toNat (by omega)
  unfold colLetter
  simp only [if_neg h0]
  rw [if_neg]
  simpa [List.isEmpty_iff] using hne

/-- C7: `_col_letter` computes the standard bijective base-26 encoding:
for every positive index the result is a nonempty word of capitals
`A`–`Z` whose base-26 reading is the index itself, and the landmark
values 1, 26, 27, 52 map to `A`, `Z`, `AA`, `AZ`. -/
theorem C7_col_letter_bijective_base26 :
    (∀ n : Int, 1 ≤ n →
      colLetter n ≠ "" ∧
      (∀ c ∈ (colLetter n).data, 'A' ≤ c ∧ c ≤ 'Z') ∧
      (letterIndex (colLetter n) : Int) = n) ∧
    colLetter 1 = "A" ∧ colLetter 26 = "Z" ∧
    colLetter 27 = "AA" ∧ colLetter 52 = "AZ" := by
  refine ⟨?_, rfl, rfl, rfl, rfl⟩
  intro n hn
  have hmk := colLetter_pos n hn
  have hne := colChars_ne_nil n.toNat (by omega)
  refine ⟨?_, ?_, ?_⟩
  · intro h
    rw [hmk] at h
    exact hne (congrArg String.data h)
  · intro c hc
    rw [hmk] at hc
    exact colCharsGo_mem n.toNat n.toNat c le_rfl hc
  · rw [hmk]
    have hfold := colCharsGo_foldl n.toNat n.toNat 0 le_rfl
    have hv : letterIndex (String.mk (colChars n.toNat)) = n.toNat := by
      unfold letterIndex colChars
      simpa using hfold
    rw [hv]
    omega

/-- Witness for C7 at the concrete index 30 (`"AD"`). -/
theorem C7_witness :
    colLetter 30 ≠ "" ∧
    (∀ c ∈ (colLetter 30).data, 'A' ≤ c ∧ c ≤ 'Z') ∧
    (letterIndex (colLetter 30) : Int) = 30 :=
  C7_col_letter_bijective_base26.1 30 (by norm_num)

/-- C5 counterexample: on the non-positive inputs `0` and `-3` the
addressing function raises nothing and returns the letter string `"A"`
(the embedding is total precisely because the source function has no
failure path: `return s or "A"`). -/
theorem C5_counterexample : colLetter 0 = "A" ∧ colLetter (-3) = "A" :=
  ⟨rfl, rfl⟩

/-- C5 as amended: for every `n ≤ 0` the loop body never runs and
`_col_letter` returns `"A"` — a total function, not an `InvalidRange`
error. -/
theorem C5_nonpositive_gives_A : ∀ n : Int, n ≤ 0 → colLetter n = "A" := by
  intro n hn
  unfold colLetter
  simp [hn]

/-- Witness for the amended C5 at the concrete input `-7`. -/
theorem C5_witness : colLetter (-7) = "A" :=
  C5_nonpositive_gives_A (-7) (by norm_num)

/-- Summing `f` over the rows a predicate keeps equals summing the
if-guarded contribution over all rows. -/
theorem sum_filter_eq_sum_ite (p : α → Bool) (f : α → Rat) (l : List α) :
    ((l.filter p).map f).sum = (l.map (fun r => if p r then f r else 0)).sum := by
  induction l with
  | nil => rfl
  | cons a l ih => by_cases h : p a <;> simp [h, ih]

/-- The deals branch of the summary block, with the branch tests
discharged. -/
theorem summaryBlock_deals (rows : List Rec) (n : Nat) (hne : rows ≠ []) :
    summaryBlock "deals" rows n =
      [padRow [.s "Сводка по сделкам"] n,
       padRow [.s "Период:",
         .s (dateMinStr (rows.filterMap (fun r => parseDate r.created_at))),
         .s (dateMaxStr (rows.filterMap (fun r => parseDate r.created_at)))] n,
       padRow (.s "Статус" :: dealOrder.map (fun k => .s (dealLabel k))) n,
       padRow (.s "Кол-во" :: dealOrder.map (fun k => .i (dealCount rows k))) n,
       padRow (.s "Сумма" :: dealOrder.map (fun k => .q (round2 (dealSum rows k)))) n,
       padRow [.s "Всего записей:", .i rows.length] n] := by
  unfold summaryBlock
  rw [if_neg (by simpa [List.isEmpty_iff] using hne), if_neg (by decide), if_pos rfl]

/-- C6 counterexample: a deal row whose status key is missing is
counted under `draft` by the block (reported draft count 1) although no
row has status `draft` (actual count 0) — the `r.get("status") or
"draft"` defaulting. -/
theorem C6_counterexample :
    (summaryBlock "deals" [{ status := none }] 9)[3]? =
      some (padRow [.s "Кол-во", .i 1, .i 0, .i 0, .i 0] 9) ∧
    ([({ status := none } : Rec)].filter (fun r => r.status == some "draft")).length = 0 :=
  ⟨rfl, rfl⟩

/-- C6 as amended: for every non-empty row list the deals summary
reports, per status of the fixed set in order, the count of rows with
that effective status and the half-even-rounded sum of their amounts
(a missing or non-convertible amount contributing 0 without error),
plus the total record count — where the effective status of a row with
a missing or empty status is `draft`; the spec's worked example holds
(for an empty row list the code emits the generic placeholder block
with total 0 and no per-status rows, settled under C6's sources). -/
theorem C6_deals_summary :
    (∀ (rows : List Rec) (n : Nat), rows ≠ [] →
      (summaryBlock "deals" rows n)[3]? =
        some (padRow (.s "Кол-во" :: dealOrder.map (fun k =>
          .i (rows.countP (fun r => effStatus r == k)))) n) ∧
      (summaryBlock "deals" rows n)[4]? =
        some (padRow (.s "Сумма" :: dealOrder.map (fun k =>
          .q (round2 (rows.map (fun r =>
            if effStatus r == k then amtVal r else 0)).sum))) n) ∧
      (summaryBlock "deals" rows n)[5]? =
        some (padRow [.s "Всего записей:", .i rows.length] n)) ∧
    (∀ r : Rec, (r.status = none ∨ r.status = some "") → effStatus r = "draft") ∧
    (summaryBlock "deals" exampleDealsRows 9)[3]? =
      some (padRow [.s "Кол-во", .i 2, .i 0, .i 1, .i 0] 9) ∧
    (summaryBlock "deals" exampleDealsRows 9)[4]? =
      some (padRow [.s "Сумма", .q 300, .q 0, .q 300, .q 0] 9) ∧
    (summaryBlock "deals" exampleDealsRows 9)[5]? =
      some (padRow [.s "Всего записей:", .i 3] 9) := by
  refine ⟨?_, ?_, ?_, ?_, ?_⟩
  · intro rows n hne
    have hcnt : ∀ k, dealCount rows k = rows.countP (fun r => effStatus r == k) := by
      intro k
      unfold dealCount
      rw [List.countP_eq_length_filter]
    have hsum : ∀ k, dealSum rows k =
        (rows.map (fun r => if effStatus r == k then amtVal r else 0)).sum := by
      intro k
      unfold dealSum
      rw [sum_filter_eq_sum_ite]
    rw [summaryBlock_deals rows n hne]
    simp only [hcnt, hsum]
    exact ⟨rfl, rfl, rfl⟩
  · intro r hr
    rcases hr with hr | hr <;> simp [effStatus, hr]
  · rw [summaryBlock_deals _ _ (by simp [exampleDealsRows])]
    simp +decide [dealOrder, dealCount, exampleDealsRows, effStatus, padRow]
  · rw [summaryBlock_deals _ _ (by simp [exampleDealsRows])]
    simp +decide [dealOrder, dealSum, exampleDealsRows, effStatus, amtVal, padRow]
    norm_num [round2, roundHalfEven, Rat.floor_def']
  · rw [summaryBlock_deals _ _ (by simp [exampleDealsRows])]
    simp [exampleDealsRows, padRow]

/-- Witness for C6 at a concrete one-row input. -/
theorem C6_witness :
    (summaryBlock "deals" [{ status := some "won", amount := some (.num 5) }] 4)[3]? =
      some (padRow (.s "Кол-во" :: dealOrder.map (fun k =>
        .i (([({ status := some "won", amount := some (.num 5) } : Rec)]).countP
          (fun r => effStatus r == k)))) 4) :=
  (C6_deals_summary.1 [{ status := some "won", amount := some (.num 5) }] 4
    (List.cons_ne_nil _ _)).1

/-- The value matrix in the summary branch, unfolded. -/
theorem buildValues_pos (title : String) (headers : List String) (rows : List (List Cell))
    (sectionTag : Option String) (rowsData : List Rec)
    (h : (truthy sectionTag && headers.length != 0) = true) :
    buildValues title headers rows sectionTag rowsData =
      buildTitleRow title headers.length ::
        (summaryBlock (sectionTag.getD "") rowsData headers.length ++
          (List.replicate headers.length (Cell.s "") ::
            (headers.map Cell.s :: buildDataRows rows))) := by
  unfold buildValues
  rw [if_pos h]

/-- The value matrix in the no-summary branch, unfolded. -/
theorem buildValues_neg (title : String) (headers : List String) (rows : List (List Cell))
    (sectionTag : Option String) (rowsData : List Rec)
    (h : (truthy sectionTag && headers.length != 0) = false) :
    buildValues title headers rows sectionTag rowsData =
      buildTitleRow title headers.length ::
        List.replicate headers.length (Cell.s "") ::
          headers.map Cell.s :: buildDataRows rows := by
  unfold buildValues
  rw [if_neg]
  simp [h]

/-- C9: the computed `data_start_row` equals the number of rows that
precede the header row in the value matrix — `1 (title) +
len(summary_rows) + 1 (blank)` in the summary branch and `2` otherwise
— and the row at that index is exactly the header row. -/
theorem C9_data_start_row :
    ∀ (title : String) (headers : List String) (rows : List (List Cell))
      (sectionTag : Option String) (rowsData : List Rec),
      (if truthy sectionTag && headers.length != 0 then
        dataStartRow (buildValues title headers rows sectionTag rowsData)
            (buildDataRows rows) =
          1 + (summaryBlock (sectionTag.getD "") rowsData headers.length).length + 1
      else
        dataStartRow (buildValues title headers rows sectionTag rowsData)
            (buildDataRows rows) = 2) ∧
      (buildValues title headers rows sectionTag rowsData)[
          dataStartRow (buildValues title headers rows sectionTag rowsData)
            (buildDataRows rows)]? = some (headers.map Cell.s) ∧
      (buildValues title headers rows sectionTag rowsData).length =
        dataStartRow (buildValues title headers rows sectionTag rowsData)
            (buildDataRows rows) + 1 + rows.length := by
  intro title headers rows sectionTag rowsData
  cases h : (truthy sectionTag && headers.length != 0) with
  | true =>
    rw [buildValues_pos title headers rows sectionTag rowsData h]
    set S := summaryBlock (sectionTag.getD "") rowsData headers.length with hS
    have hds :
        dataStartRow (buildTitleRow title headers.length ::
            (S ++ (List.replicate headers.length (Cell.s "") ::
              (headers.map Cell.s :: buildDataRows rows)))) (buildDataRows rows) =
          S.length + 2 := by
      simp [dataStartRow]
      omega
    rw [hds]
    refine ⟨by simp [h]; omega, ?_, by simp [buildDataRows]; omega⟩
    have h1 : S.length + 2 = (S.length + 1) + 1 := by omega
    rw [h1, List.getElem?_cons_succ,
      List.getElem?_append_right (by omega : S.length ≤ S.length + 1)]
    simp
  | false =>
    rw [buildValues_neg title headers rows sectionTag rowsData h]
    have hds :
        dataStartRow (buildTitleRow title headers.length ::
            List.replicate headers.length (Cell.s "") ::
              headers.map Cell.s :: buildDataRows rows) (buildDataRows rows) = 2 := by
      simp [dataStartRow]
      omega
    rw [hds]
    refine ⟨by simp [h], by simp, by simp [buildDataRows]; omega⟩

/-- Witness for C9 at a one-row clients layout. -/
theorem C9_witness :
    (buildValues "t" clientsHeaders [[Cell.i 1]] (some "clients") [{ status := some "active" }])[
        dataStartRow (buildValues "t" clientsHeaders [[Cell.i 1]] (some "clients")
          [{ status := some "active" }]) (buildDataRows [[Cell.i 1]])]? =
      some (clientsHeaders.map Cell.s) :=
  (C9_data_start_row "t" clientsHeaders [[Cell.i 1]] (some "clients")
    [{ status := some "active" }]).2.1

/-- Every row of the summary block has exactly the padded width as soon
as the table is at least 5 columns wide (the widest unpadded summary
row, the deals status band, has 5 cells). -/
theorem summaryBlock_mem_length (tag : String) (rowsData : List Rec) (n : Nat)
    (h5 : 5 ≤ n) : ∀ row ∈ summaryBlock tag rowsData n, row.length = n := by
  have hall : (summaryBlock tag rowsData n).all (fun row => row.length == n) = true := by
    unfold summaryBlock
    split_ifs <;> simp [padRow, dealOrder] <;> omega
  intro row hrow
  simpa using List.all_eq_true.mp hall row hrow

/-- Every clients export row has exactly 9 cells. -/
theorem clientRows_length (recs : List ClientRec) :
    ∀ row ∈ clientRows recs, row.length = 9 := by
  intro row hrow
  unfold clientRows at hrow
  obtain ⟨⟨i, r⟩, _, rfl⟩ := List.mem_map.mp hrow
  rfl

/-- Every deals export row has exactly 9 cells. -/
theorem dealRows_length (recs : List DealRec) :
    ∀ row ∈ dealRows recs, row.length = 9 := by
  intro row hrow
  unfold dealRows at hrow
  obtain ⟨⟨i, r⟩, _, rfl⟩ := List.mem_map.mp hrow
  simp [dealCells, intOrEmpty, amtOrEmpty]

/-- Every tasks export row has exactly 10 cells. -/
theorem taskRows_length (recs : List TaskRec) :
    ∀ row ∈ taskRows recs, row.length = 10 := by
  intro row hrow
  unfold taskRows at hrow
  obtain ⟨⟨i, r⟩, _, rfl⟩ := List.mem_map.mp hrow
  simp [taskCells, intOrEmpty]

/-- Rectangularity of the composed matrix for a section export whose
data rows all have header width (and at least 5 columns). -/
theorem buildValues_mem_length (title : String) (headers : List String)
    (rows : List (List Cell)) (sectionTag : Option String) (rowsData : List Rec)
    (h5 : 5 ≤ headers.length)
    (hrows : ∀ row ∈ rows, row.length = headers.length)
    (htr : truthy sectionTag = true) :
    ∀ row ∈ buildValues title headers rows sectionTag rowsData,
      row.length = headers.length := by
  intro row hrow
  rw [buildValues_pos title headers rows sectionTag rowsData
    (by rw [htr, Bool.true_and, bne_iff_ne]; omega)] at hrow
  rcases List.mem_cons.mp hrow with rfl | hrow
  · simp [buildTitleRow]
    omega
  rcases List.mem_append.mp hrow with hs | hrow
  · exact summaryBlock_mem_length _ _ _ h5 row hs
  rcases List.mem_cons.mp hrow with rfl | hrow
  · simp
  rcases List.mem_cons.mp hrow with rfl | hrow
  · simp
  · unfold buildDataRows at hrow
    obtain ⟨row₀, h₀, rfl⟩ := List.mem_map.mp hrow
    simp [hrows row₀ h₀]

/-- C8: for each of the three section exports and every record set, the
composed value matrix is rectangular — every row (title, summary rows,
blank, header, data rows) has exactly the header width, which is
therefore also the width of the widest row. -/
theorem C8_rectangular_matrix :
    (∀ recs : List ClientRec,
      ∀ row ∈ buildValues "CRM — Отчёт Клиенты" clientsHeaders (clientRows recs)
          (some "clients") ((sortByKey (fun r => r.id) recs).map clientToRec),
        row.length = clientsHeaders.length) ∧
    (∀ recs : List DealRec,
      ∀ row ∈ buildValues "CRM — Отчёт Сделки" dealsHeaders (dealRows recs)
          (some "deals") ((sortByKey (fun r => r.id) recs).map dealToRec),
        row.length = dealsHeaders.length) ∧
    (∀ recs : List TaskRec,
      ∀ row ∈ buildValues "CRM — Отчёт Задачи" tasksHeaders (taskRows recs)
          (some "tasks") ((sortByKey (fun r => r.id) recs).map taskToRec),
        row.length = tasksHeaders.length) := by
  refine ⟨fun recs => ?_, fun recs => ?_, fun recs => ?_⟩
  · exact buildValues_mem_length _ _ _ _ _ (by decide)
      (fun row h => clientRows_length recs row h) rfl
  · exact buildValues_mem_length _ _ _ _ _ (by decide)
      (fun row h => dealRows_length recs row h) rfl
  · exact buildValues_mem_length _ _ _ _ _ (by decide)
      (fun row h => taskRows_length recs row h) rfl

/-- Witness for C8: the header row of the empty clients export has the
header width. -/
theorem C8_witness :
    (clientsHeaders.map Cell.s).length = clientsHeaders.length :=
  C8_rectangular_matrix.1 [] (clientsHeaders.map Cell.s) (by decide)

/-- C1 (code bug): in delegated mode with a configured service key
whose `client_email` is non-empty, the export reaches the grant call at
the claimed position — after document creation, before any write — but
crashes there with `AttributeError`, because `GoogleDriveUserClient`
defines no `share_file_with_email` method: the trace holds exactly the
creation event, no grant, no write and no formatting. -/
theorem C1_grant_attribute_error :
    exportToGoogleSheet envDelegated "CRM — Отчёт Клиенты" clientsHeaders [] none
        (some "clients") (some []) =
      ([Event.createSheetUser "CRM — Отчёт Клиенты 2025-01-01 00-00-00" none],
       .error (.attributeError "share_file_with_email")) ∧
    "share_file_with_email" ∉ googleDriveUserClientAttrs :=
  ⟨rfl, by decide⟩

/-- C2 (code bug): a service-mode clients export performs the bulk
value write and then crashes with `TypeError`, because the
`format_report_table` call passes keyword arguments the method does not
accept (`data_start_row` first among them); the trace holds the
creation and the bulk write but no formatting event, and no result dict
is returned. -/
theorem C2_format_type_error :
    (exportToGoogleSheet envService "CRM — Отчёт Клиенты" clientsHeaders
        (clientRows [exClientFormulaNotes]) none (some "clients")
        (some ([exClientFormulaNotes].map clientToRec))).1 =
      [Event.createFileService "CRM — Отчёт Клиенты 2025-01-01 00-00-00"
          MIME_GOOGLE_SHEET none,
        Event.writeRange "A1:I8" "Лист1"
          (buildValues "CRM — Отчёт Клиенты" clientsHeaders
            (clientRows [exClientFormulaNotes]) (some "clients")
            ([exClientFormulaNotes].map clientToRec)) "USER_ENTERED"] ∧
    (exportToGoogleSheet envService "CRM — Отчёт Клиенты" clientsHeaders
        (clientRows [exClientFormulaNotes]) none (some "clients")
        (some ([exClientFormulaNotes].map clientToRec))).2 =
      .error (.typeError
        "format_report_table() got an unexpected keyword argument data_start_row") ∧
    firstUnexpectedKwarg = some "data_start_row" :=
  ⟨rfl, rfl, rfl⟩

/-- C3 counterexample: a client notes value `"=1+1"` is NOT escaped —
it appears in the composed value matrix verbatim as `"=1+1"`, not as
`"'=1+1"` (the row in question is the first data row, matrix index 7;
the notes column is index 6). -/
theorem C3_counterexample :
    (buildValues "CRM — Отчёт Клиенты" clientsHeaders (clientRows [exClientFormulaNotes])
        (some "clients") ([exClientFormulaNotes].map clientToRec))[7]? =
      some ((clientCells 0 exClientFormulaNotes).map (fun c => Cell.s (pyStr c))) ∧
    (clientCells 0 exClientFormulaNotes)[6]? = some (.s "=1+1") ∧
    (Cell.s "=1+1") ≠ (Cell.s "'=1+1") :=
  ⟨rfl, rfl, by decide⟩

/-- C3 as amended: the quote-escape is applied only in the clients
export and only to the phone column — a phone whose stripped value
starts with `+`, `=`, `-` or `@` is prefixed with a quote, any other
phone passes through — while the clients notes column and the free-text
columns of the deals and tasks exports are placed in the row
unescaped. -/
theorem C3_escape_only_clients_phone :
    (∀ (i : Nat) (r : ClientRec) (p : String) (c : Char) (l : List Char),
      r.phone = some p → pyStrip p = c :: l →
      (clientCells i r)[4]? =
        some (.s (if c == '+' || c == '=' || c == '-' || c == '@'
                  then "'" ++ p else p))) ∧
    (∀ (i : Nat) (r : ClientRec) (p : String),
      r.phone = some p → pyStrip p = [] →
      (clientCells i r)[4]? = some (.s p)) ∧
    (∀ (i : Nat) (r : ClientRec),
      (clientCells i r)[6]? = some (.s (strTake (r.notes.getD "") 500))) ∧
    (∀ (i : Nat) (r : DealRec),
      (dealCells i r)[6]? = some (.s (strTake (r.notes.getD "") 500))) ∧
    (∀ (i : Nat) (r : TaskRec),
      (taskCells i r)[3]? = some (.s (strTake (r.description.getD "") 500))) := by
  refine ⟨?_, ?_, fun i r => rfl, fun i r => rfl, fun i r => rfl⟩
  · intro i r p c l hp hstrip
    simp [clientCells, escapeCell, hp, hstrip]
  · intro i r p hp hstrip
    simp [clientCells, escapeCell, hp, hstrip]

/-- Witness for the amended C3: the phone `"=2+2"` is escaped to
`"'=2+2"` in the clients row. -/
theorem C3_witness :
    (clientCells 0 exClientFormulaPhone)[4]? =
      some (.s (if '=' == '+' || '=' == '=' || '=' == '-' || '=' == '@'
                then "'" ++ "=2+2" else "=2+2")) :=
  C3_escape_only_clients_phone.1 0 exClientFormulaPhone "=2+2" '=' ['2', '+', '2'] rfl rfl

/-- C4 counterexample: with an empty settings file (neither credential
configured) but the credential environment variable set, the export
does not fail with a missing-credentials error — the credential
resolution silently falls back to the environment variable and the
document is created. -/
theorem C4_counterexample :
    readGoogleSettings envEnvFallback.settingsFile = ({} : GoogleSettings) ∧
    resolveCredentialsPath none envEnvFallback = .ok "/etc/sa.json" ∧
    (exportToGoogleSheet envEnvFallback "CRM — Отчёт Клиенты" clientsHeaders [] none
        (some "clients") (some [])).1.head? =
      some (Event.createFileService "CRM — Отчёт Клиенты 2025-01-01 00-00-00"
        MIME_GOOGLE_SHEET none) :=
  ⟨rfl, rfl, rfl⟩

/-- C4 as amended: when neither path is configured in Settings the
service branch first falls back to the credential environment variables
and then to the bundled `*excel-factory*.json` search, and only when
those are also absent does the export fail — with `FileNotFoundError`
(the code's missing-credentials failure), before any remote call; a
configured (absolute) service-credential path whose file is malformed
fails at credential load with no event emitted and no fallback to the
other mode, and likewise a configured client-secret path whose file is
malformed fails when no valid cached OAuth token exists. -/
theorem C4_credentials_amended :
    (∀ env : ExportEnv,
      (readGoogleSettings env.settingsFile).credentials_path = none →
      (readGoogleSettings env.settingsFile).client_secret_path = none →
      ((env.envCredPath = none → env.integrationsKey = none → env.configKey = none →
        ∀ title headers rows folderId sectionTag rowsData,
          exportToGoogleSheet env title headers rows folderId sectionTag rowsData =
            ([], .error (.fileNotFound "service-account json key"))) ∧
       (∀ p, env.envCredPath = some p → resolveCredentialsPath none env = .ok p))) ∧
    (∀ (env : ExportEnv) (p : String),
      (readGoogleSettings env.settingsFile).credentials_path = some p →
      (readGoogleSettings env.settingsFile).client_secret_path = none →
      isAbsolutePath p = true →
      env.files p = .malformed →
      ∀ title headers rows folderId sectionTag rowsData,
        exportToGoogleSheet env title headers rows folderId sectionTag rowsData =
          ([], .error (.invalidCredentials p))) ∧
    (∀ (env : ExportEnv) (p : String),
      (readGoogleSettings env.settingsFile).client_secret_path = some p →
      isAbsolutePath p = true → p ≠ "" →
      env.tokenValid = false →
      env.files p = .malformed →
      ∀ title headers rows folderId sectionTag rowsData,
        exportToGoogleSheet env title headers rows folderId sectionTag rowsData =
          ([], .error (.invalidCredentials p))) := by
  refine ⟨?_, ?_, ?_⟩
  · intro env hc hs
    refine ⟨?_, ?_⟩
    · intro he hi hcf title headers rows folderId sectionTag rowsData
      simp only [exportToGoogleSheet, createStage, hc, hs]
      simp [resolveCredsPath, truthy, resolveCredentialsPath, he, hi, hcf]
    · intro p hp
      unfold resolveCredentialsPath
      rw [hp]
  · intro env p hc hs habs hmal title headers rows folderId sectionTag rowsData
    simp only [exportToGoogleSheet, createStage, hc, hs]
    simp [resolveCredsPath, habs, truthy, resolveCredentialsPath, loadServiceAccount, hmal]
  · intro env p hs habs hne htok hmal title headers rows folderId sectionTag rowsData
    simp only [exportToGoogleSheet, createStage, hs]
    simp [resolveCredsPath, habs, truthy, hne, getUserCredentials, htok, hmal]

/-- Witness for the amended C4: the all-absent environment fails before
any remote call with the missing-key error. -/
theorem C4_witness :
    exportToGoogleSheet {} "t" [] [] none none none =
      ([], .error (.fileNotFound "service-account json key")) :=
  ((C4_credentials_amended.1 {} rfl rfl).1 rfl rfl rfl "t" [] [] none none none)

/-- C10: reading the settings file is total — a missing file and an
unparseable file both give the empty settings dict — and the export
pipeline behaves identically (same trace, same outcome) on a corrupted
settings file and on an absent one, proceeding in both cases to the
service-account credential path with no error about the settings file
itself. -/
theorem C10_settings_read_total :
    readGoogleSettings .corrupt = ({} : GoogleSettings) ∧
    readGoogleSettings .absent = ({} : GoogleSettings) ∧
    ∀ (env : ExportEnv) title headers rows folderId sectionTag rowsData,
      exportToGoogleSheet { env with settingsFile := .corrupt }
          title headers rows folderId sectionTag rowsData =
        exportToGoogleSheet { env with settingsFile := .absent }
          title headers rows folderId sectionTag rowsData :=
  ⟨rfl, rfl, fun _ _ _ _ _ _ _ => rfl⟩

end MiniCRM
